import Mathlib

/-!
Verification development for the hoteval SDK (client-side telemetry library).

The Python source under `hoteval/` is shallowly embedded below:

* `types.py`    → `AgentConfig`, `Event`, `Step`, `Run` structures and their
  `to_dict` serialization into a JSON value type `JValue`.
* `client.py`   → `HotEvalClient` (transport configuration plus the single
  "current agent" slot), its constructor, `set_agent`, `_post`,
  `send_run_start`, `send_run_end`, `send_step`, and the module-level
  `configure` / `set_agent` / `get_client` acting on the global `_client`.
* `runs.py`     → `start_run`, `end_run`.
* `steps.py`    → `log_step`.
* `agent.py`    → the `Agent.run` scoped (context-manager) helper.

Modelling conventions:

* Python exceptions are an `Except Err` result.  The spec's error taxonomy
  maps onto the code's raises: `ValueError` raised during configuration
  validation is `Err.configuration`, the `RuntimeError`s raised by
  `get_client` and `send_run_start` when prior setup is missing are
  `Err.notConfigured`, and a `requests` failure inside `_post` is
  `Err.transport`.
* The global mutable state (`_client` and the payloads handed to the HTTP
  session) is an explicit `SDKState` threaded through the operations.  The
  `sent` log records every payload passed to the transport (the Sender),
  whether or not the network call succeeds.
* The Sender (the `requests` session) is an injected oracle
  `Sender : SendReq → Bool` deciding success of each network call.
* `datetime.now(timezone.utc)` is an abstract instant `now : Nat` supplied
  per operation (all clock reads inside one operation yield that instant);
  `datetime.isoformat` is modelled as the decimal rendering of the instant,
  an injective encoding standing in for the ISO-8601 string.
* `uuid.uuid4()` is an identifier string supplied per operation.
* Python dictionaries are ordered association lists (`JValue.obj`), with
  item assignment replacing an existing key in place or appending a new one,
  exactly like CPython dicts.
* Python string truthiness (`a or b` falling through on `None` and `""`) is
  `pyTruthy` / `pyOrS`.
-/

namespace HotEval

/-- JSON-compatible values, the codomain of the `to_dict` serializers and the
body type of wire payloads.  Objects keep their key insertion order. -/
inductive JValue where
  | null : JValue
  | str (s : String) : JValue
  | num (n : Nat) : JValue
  | bool (b : Bool) : JValue
  | arr (xs : List JValue) : JValue
  | obj (fields : List (String × JValue)) : JValue
deriving BEq

/-- Error taxonomy of the SDK, mapping the code's raised exception classes to
the spec's names: `configuration` for the `ValueError`s raised while
validating configuration, `notConfigured` for the `RuntimeError`s raised when
`configure` / `set_agent` was never called, `transport` for a failed network
call inside `_post`. -/
inductive Err where
  | configuration (msg : String) : Err
  | notConfigured (msg : String) : Err
  | transport (url : String) : Err
deriving DecidableEq

/-- Python truthiness of an optional string: `None` and `""` are falsy. -/
def pyTruthy : Option String → Bool
  | none => false
  | some s => decide (s ≠ "")

/-- The Python idiom `a or b` for `a : Optional[str]` and `b : str`: yields
`b` when `a` is `None` or empty. -/
def pyOrS (a : Option String) (b : String) : String :=
  match a with
  | none => b
  | some s => if s = "" then b else s

/-- `str.rstrip("/")`: drop trailing slashes. -/
def rstripSlash (s : String) : String :=
  String.mk ((s.data.reverse.dropWhile (· == '/')).reverse)

/-- `str.lstrip("/")`: drop leading slashes. -/
def lstripSlash (s : String) : String :=
  String.mk (s.data.dropWhile (· == '/'))

/-- `datetime.isoformat`, modelled as the decimal rendering of the abstract
instant (an injective encoding standing in for the ISO-8601 string). -/
def isoformat (t : Nat) : String :=
  Nat.repr t

/-- Serialize an optional instant the way every `to_dict` does:
`self.x.isoformat() if self.x else None`. -/
def jTime : Option Nat → JValue
  | none => JValue.null
  | some t => JValue.str (isoformat t)

/-- Lookup of a key in an ordered field list (first match). -/
def lookupField : List (String × JValue) → String → Option JValue
  | [], _ => none
  | (k', v) :: rest, k => if k' = k then some v else lookupField rest k

/-- Read a key out of a JSON object (`none` on non-objects / missing keys). -/
def jGet (j : JValue) (k : String) : Option JValue :=
  match j with
  | JValue.obj fields => lookupField fields k
  | _ => none

/-- CPython dict item assignment on an ordered field list: replace the first
occurrence of the key in place, or append the pair when the key is absent. -/
def setField : List (String × JValue) → String → JValue → List (String × JValue)
  | [], k, v => [(k, v)]
  | (k', v') :: rest, k, v =>
      if k' = k then (k, v) :: rest else (k', v') :: setField rest k v

/-- `d[k] = v` on a JSON object (identity on non-objects). -/
def jSet (j : JValue) (k : String) (v : JValue) : JValue :=
  match j with
  | JValue.obj fields => JValue.obj (setField fields k v)
  | _ => j

/-- `AgentConfig` dataclass from `types.py`. -/
structure AgentConfig where
  name : String
  environment : String
  data_location : String
  version : String
  description : Option String
  agent_type : String
deriving DecidableEq

/-- `AgentConfig.to_dict`. -/
def AgentConfig.to_dict (a : AgentConfig) : JValue :=
  JValue.obj
    [ ("name", JValue.str a.name),
      ("environment", JValue.str a.environment),
      ("data_location", JValue.str a.data_location),
      ("version", JValue.str a.version),
      ("description", match a.description with
        | none => JValue.null
        | some d => JValue.str d),
      ("agent_type", JValue.str a.agent_type) ]

/-- `Event` dataclass from `types.py`; `content` is the `Union[str, Dict]`
payload kept as a JSON value, `metadata` an optional JSON mapping. -/
structure Event where
  type : String
  content : JValue
  timestamp : Option Nat
  metadata : Option JValue

/-- `Event.to_dict`. -/
def Event.to_dict (e : Event) : JValue :=
  JValue.obj
    [ ("type", JValue.str e.type),
      ("content", e.content),
      ("timestamp", jTime e.timestamp),
      ("metadata", e.metadata.getD JValue.null) ]

/-- `Step` dataclass from `types.py`. -/
structure Step where
  name : String
  id : String
  attrs : Option JValue
  events : List Event
  start_time : Option Nat
  end_time : Option Nat

/-- `Step.to_dict`. -/
def Step.to_dict (st : Step) : JValue :=
  JValue.obj
    [ ("id", JValue.str st.id),
      ("name", JValue.str st.name),
      ("attrs", st.attrs.getD JValue.null),
      ("events", JValue.arr (st.events.map Event.to_dict)),
      ("start_time", jTime st.start_time),
      ("end_time", jTime st.end_time) ]

/-- `Run` dataclass from `types.py`. -/
structure Run where
  name : String
  id : String
  meta : Option JValue
  steps : List Step
  start_time : Option Nat
  end_time : Option Nat

/-- `Run.to_dict`. -/
def Run.to_dict (r : Run) : JValue :=
  JValue.obj
    [ ("id", JValue.str r.id),
      ("name", JValue.str r.name),
      ("meta", r.meta.getD JValue.null),
      ("steps", JValue.arr (r.steps.map Step.to_dict)),
      ("start_time", jTime r.start_time),
      ("end_time", jTime r.end_time) ]

/-- Process environment variables read by `client.py` (`os.getenv`). -/
structure SysEnv where
  hoteval_api_key : Option String
  hoteval_base_url : Option String
  environment : Option String
  data_location : Option String

/-- `HotEvalClient` from `client.py`: resolved transport configuration plus
the single mutable "current agent" slot. -/
structure HotEvalClient where
  api_key : String
  base_url : String
  timeout : Nat
  default_environment : String
  default_data_location : String
  current_agent_config : Option AgentConfig

/-- A payload handed to the Sender: the resolved URL plus the JSON body
given to `session.post`. -/
structure SendReq where
  url : String
  payload : JValue

/-- The injected Sender capability: decides whether the network call for a
given request succeeds. -/
def Sender : Type :=
  SendReq → Bool

/-- The SDK's process-wide mutable state: the global `_client` slot of
`client.py` and the log of every payload passed to the Sender. -/
structure SDKState where
  client : Option HotEvalClient
  sent : List SendReq

/-- `HotEvalClient.__init__`: resolve the API key from the explicit argument
or the `HOTEVAL_API_KEY` environment variable (raising `ValueError` — spec:
`ConfigurationError` — when neither is truthy), resolve `base_url` and the
default environment / data-location settings, and start with no current
agent configuration. -/
def HotEvalClient.init (env : SysEnv) (api_key base_url : Option String)
    (timeout : Nat) (default_environment default_data_location : Option String) :
    Except Err HotEvalClient :=
  match (if pyTruthy api_key then api_key else env.hoteval_api_key) with
  | none => Except.error (Err.configuration "API key required")
  | some k =>
    if k = "" then Except.error (Err.configuration "API key required")
    else
      Except.ok
        { api_key := k,
          base_url := pyOrS base_url (env.hoteval_base_url.getD "https://api.hoteval.com"),
          timeout := timeout,
          default_environment := pyOrS default_environment (env.environment.getD "dev"),
          default_data_location := pyOrS default_data_location (env.data_location.getD "EU"),
          current_agent_config := none }

/-- `HotEvalClient.set_agent`: validate `name` / `version`, resolve
`environment` / `data_location` against the client defaults, and on success
install a fresh `AgentConfig` in the current-agent slot.  The in-place
mutation of `self` is modelled by returning the updated client. -/
def HotEvalClient.set_agent (c : HotEvalClient) (name : String)
    (version : Option String) (environment data_location description : Option String)
    (agent_type : String) : Except Err HotEvalClient :=
  if name = "" then Except.error (Err.configuration "Agent name is required")
  else
    match version with
    | none => Except.error (Err.configuration "Agent version is required")
    | some v =>
      if v = "" then Except.error (Err.configuration "Agent version is required")
      else
        let final_environment := pyOrS environment c.default_environment
        let final_data_location := pyOrS data_location c.default_data_location
        if final_environment = "" then
          Except.error (Err.configuration "Environment is required (set globally or per agent)")
        else if final_data_location = "" then
          Except.error (Err.configuration "Data location is required (set globally or per agent)")
        else
          Except.ok
            { c with
              current_agent_config := some
                { name := name,
                  version := v,
                  environment := final_environment,
                  data_location := final_data_location,
                  description := description,
                  agent_type := agent_type } }

/-- The request `_post` builds for a given client, endpoint and body:
`url = base_url.rstrip("/") + "/" + endpoint.lstrip("/")` (empty base when
`base_url` is falsy). -/
def reqFor (c : HotEvalClient) (endpoint : String) (data : JValue) : SendReq :=
  { url := (if c.base_url = "" then "" else rstripSlash c.base_url) ++ "/" ++
      lstripSlash endpoint,
    payload := data }

/-- `HotEvalClient._post`: build the URL, hand the payload to the Sender
(logged in `sent` whether or not the call succeeds), and surface a failed
call as `Err.transport` (the code logs and re-raises). -/
def HotEvalClient.post (sender : Sender) (c : HotEvalClient) (endpoint : String)
    (data : JValue) (s : SDKState) : Except Err Unit × SDKState :=
  let req : SendReq := reqFor c endpoint data
  let s' : SDKState := { s with sent := s.sent ++ [req] }
  if sender req then (Except.ok (), s') else (Except.error (Err.transport req.url), s')

/-- The `run_start` wire body of `send_run_start`: the serialized run with
the current `AgentConfig` merged in under `agent_metadata`. -/
def runStartPayload (run : Run) (ac : AgentConfig) : JValue :=
  JValue.obj
    [ ("type", JValue.str "run_start"),
      ("run", jSet run.to_dict "agent_metadata" ac.to_dict) ]

/-- The `run_end` wire body of `send_run_end`. -/
def runEndPayload (run : Run) : JValue :=
  JValue.obj [("type", JValue.str "run_end"), ("run", run.to_dict)]

/-- The `step` wire body of `send_step`. -/
def stepPayload (run_id : String) (step : Step) : JValue :=
  JValue.obj
    [ ("type", JValue.str "step"),
      ("run_id", JValue.str run_id),
      ("step", step.to_dict) ]

/-- `HotEvalClient.send_run_start`: serialize the run, merge the current
`AgentConfig` in as `agent_metadata` (raising `RuntimeError` — spec:
`NotConfiguredError` — when no agent is configured, before any Sender
interaction), and post the run-start payload. -/
def HotEvalClient.send_run_start (sender : Sender) (c : HotEvalClient) (run : Run)
    (s : SDKState) : Except Err Unit × SDKState :=
  match c.current_agent_config with
  | some ac =>
      HotEvalClient.post sender c "/v1/runs/start" (runStartPayload run ac) s
  | none =>
      (Except.error (Err.notConfigured
        "No agent configured. Call client.set_agent() or use hoteval.set_agent() first."), s)

/-- `HotEvalClient.send_run_end`. -/
def HotEvalClient.send_run_end (sender : Sender) (c : HotEvalClient) (run : Run)
    (s : SDKState) : Except Err Unit × SDKState :=
  HotEvalClient.post sender c "/v1/runs/end" (runEndPayload run) s

/-- `HotEvalClient.send_step`. -/
def HotEvalClient.send_step (sender : Sender) (c : HotEvalClient) (run_id : String)
    (step : Step) (s : SDKState) : Except Err Unit × SDKState :=
  HotEvalClient.post sender c "/v1/steps" (stepPayload run_id step) s

/-- Module-level `configure`: build a fresh `HotEvalClient` and install it in
the global slot, replacing any previous client wholesale.  When the
constructor raises, the global slot keeps its previous value. -/
def configure (env : SysEnv) (api_key base_url : Option String) (timeout : Nat)
    (environment data_location : Option String) (s : SDKState) :
    Except Err Unit × SDKState :=
  match HotEvalClient.init env api_key base_url timeout environment data_location with
  | Except.ok c => (Except.ok (), { s with client := some c })
  | Except.error e => (Except.error e, s)

/-- Module-level `get_client`: the global client, or `RuntimeError` — spec:
`NotConfiguredError` — when `configure` was never called. -/
def get_client (s : SDKState) : Except Err HotEvalClient :=
  match s.client with
  | some c => Except.ok c
  | none => Except.error (Err.notConfigured
      "HotEval client not configured. Call hoteval.configure() first.")

/-- Module-level `set_agent` (required `version : str`): delegate to the
global client's `set_agent`; the in-place mutation of the shared client
object is the update of the global slot. -/
def setAgentGlobal (name version : String)
    (environment data_location description : Option String) (agent_type : String)
    (s : SDKState) : Except Err Unit × SDKState :=
  match get_client s with
  | Except.error e => (Except.error e, s)
  | Except.ok c =>
    match HotEvalClient.set_agent c name (some version) environment data_location
        description agent_type with
    | Except.error e => (Except.error e, s)
    | Except.ok c' => (Except.ok (), { s with client := some c' })

/-- The `Run` object constructed at the top of `runs.start_run`, before any
client lookup or network activity: fresh id, empty step list, `start_time`
set to the call instant, `end_time` unset. -/
def mkRun (name : String) (meta : Option JValue) (now : Nat) (runId : String) : Run :=
  { name := name,
    id := runId,
    meta := meta,
    steps := [],
    start_time := some now,
    end_time := none }

/-- `runs.start_run`: construct the `Run`, then fetch the global client and
send the run-start payload.  A `get_client` or Sender failure propagates, in
which case the constructed `Run` is not returned to the caller (`return run`
is only reached when `send_run_start` returns). -/
def start_run (sender : Sender) (name : String) (meta : Option JValue) (now : Nat)
    (runId : String) (s : SDKState) : Except Err Run × SDKState :=
  let run := mkRun name meta now runId
  match get_client s with
  | Except.error e => (Except.error e, s)
  | Except.ok c =>
    match HotEvalClient.send_run_start sender c run s with
    | (Except.ok _, s') => (Except.ok run, s')
    | (Except.error e, s') => (Except.error e, s')

/-- `runs.end_run`: set `run.end_time` to the call instant (an in-place
mutation, modelled by the returned `Run`), then fetch the global client and
send the run-end payload.  The mutation happens before the client lookup, so
the returned `Run` carries the new `end_time` even when an error
propagates. -/
def end_run (sender : Sender) (run : Run) (now : Nat) (s : SDKState) :
    Except Err Unit × Run × SDKState :=
  let run' := { run with end_time := some now }
  match get_client s with
  | Except.error e => (Except.error e, run', s)
  | Except.ok c =>
    match HotEvalClient.send_run_end sender c run' s with
    | (r, s') => (r, run', s')

/-- One entry of the `events` argument of `steps.log_step`: an event
dictionary with required `type` and `content` keys and an optional
`metadata` key. -/
structure EventInput where
  type : String
  content : JValue
  metadata : Option JValue

/-- The event-dictionary conversion loop at the top of `steps.log_step`:
each dictionary becomes an `Event` stamped with the call instant (`if
events:` makes `None` and the empty list both yield no events). -/
def mkLoggedEvents (events : Option (List EventInput)) (now : Nat) : List Event :=
  match events with
  | none => []
  | some evs => evs.map fun e =>
      { type := e.type, content := e.content, timestamp := some now,
        metadata := e.metadata }

/-- The `Step` constructed by `steps.log_step`: fresh id, the converted
events, and `start_time = end_time = now` (the code assumes the step
completes immediately relative to the logging call). -/
def mkLoggedStep (name : String) (attrs : Option JValue)
    (events : Option (List EventInput)) (now : Nat) (stepId : String) : Step :=
  { name := name,
    id := stepId,
    attrs := attrs,
    events := mkLoggedEvents events now,
    start_time := some now,
    end_time := some now }

/-- `steps.log_step`: convert the event dictionaries to `Event`s stamped
with the call instant, construct a `Step` with `start_time = end_time = now`,
append it to the run's step list (an in-place mutation, modelled by the
returned `Run`), then fetch the global client and send the step payload. -/
def log_step (sender : Sender) (run : Run) (name : String) (attrs : Option JValue)
    (events : Option (List EventInput)) (now : Nat) (stepId : String) (s : SDKState) :
    Except Err Step × Run × SDKState :=
  let step := mkLoggedStep name attrs events now stepId
  let run' := { run with steps := run.steps ++ [step] }
  match get_client s with
  | Except.error e => (Except.error e, run', s)
  | Except.ok c =>
    match HotEvalClient.send_step sender c run'.id step s with
    | (Except.ok _, s') => (Except.ok step, run', s')
    | (Except.error e, s') => (Except.error e, run', s')

/-- The identity / configuration data carried by an `agent.Agent` instance. -/
structure Agent where
  name : String
  version : String
  environment : Option String
  data_location : Option String
  description : Option String
  agent_type : String

/-- A body executed inside the `with agent.run(...)` scope: it sees the
yielded `Run` and the SDK state and either returns a value or raises; it may
mutate the run (e.g. via `log_step`) and the state. -/
def ScopeBody : Type :=
  Run → SDKState → Except Err JValue × Run × SDKState

/-- `Agent.run`, the `@contextmanager` scoped helper: `start_run` on entry;
when it succeeds, run the body inside `try:`; the `finally:` block invokes
`end_run` on the (possibly mutated) run on every exit path, normal return or
raise.  When `end_run` itself raises, its error propagates (replacing the
body's, as a raise inside `finally` does); otherwise the body's outcome
stands. -/
def Agent.runScope (sender : Sender) (_a : Agent) (name : String)
    (meta : Option JValue) (tStart tEnd : Nat) (runId : String) (body : ScopeBody)
    (s : SDKState) : Except Err JValue × Option Run × SDKState :=
  match start_run sender name meta tStart runId s with
  | (Except.error e, s') => (Except.error e, none, s')
  | (Except.ok run, s') =>
    match body run s' with
    | (bres, run2, s2) =>
      match end_run sender run2 tEnd s2 with
      | (eres, run3, s3) =>
        (match eres with
          | Except.error e => Except.error e
          | Except.ok _ => bres, some run3, s3)

/-- A concrete process environment exercising the theorems: the API key is
present, the other variables are unset. -/
def envDemo : SysEnv :=
  { hoteval_api_key := some "k",
    hoteval_base_url := none,
    environment := none,
    data_location := none }

/-- A concrete process environment with no resolvable API key at all. -/
def envNoKey : SysEnv :=
  { hoteval_api_key := none,
    hoteval_base_url := none,
    environment := none,
    data_location := none }

/-- The initial SDK state: no global client, nothing sent. -/
def stateEmpty : SDKState :=
  { client := none, sent := [] }

/-- State after `configure(base_url="http://x")` under `envDemo`. -/
def stateConfigured : SDKState :=
  (configure envDemo none (some "http://x") 30 none none stateEmpty).2

/-- The client `configure` installs in `stateConfigured`. -/
def clientDemo : HotEvalClient :=
  { api_key := "k",
    base_url := "http://x",
    timeout := 30,
    default_environment := "dev",
    default_data_location := "EU",
    current_agent_config := none }

/-- State after additionally `set_agent("bot", "1.0.0")`. -/
def stateWithAgent : SDKState :=
  (setAgentGlobal "bot" "1.0.0" none none none "sdk_configured" stateConfigured).2

/-- The agent configuration installed by that `set_agent` call. -/
def agentConfigDemo : AgentConfig :=
  { name := "bot",
    environment := "dev",
    data_location := "EU",
    version := "1.0.0",
    description := none,
    agent_type := "sdk_configured" }

/-- The client in `stateWithAgent`. -/
def clientWithAgent : HotEvalClient :=
  { clientDemo with current_agent_config := some agentConfigDemo }

/-- A Sender whose network calls always succeed. -/
def senderOk : Sender :=
  fun _ => true

/-- A Sender whose network calls always fail. -/
def senderFail : Sender :=
  fun _ => false

/-- A concrete run for exercising serialization and the run lifecycle. -/
def runDemo : Run :=
  mkRun "r1" none 5 "rid1"

/-- A concrete agent facade mirroring `agentConfigDemo`. -/
def agentDemo : Agent :=
  { name := "bot",
    version := "1.0.0",
    environment := none,
    data_location := none,
    description := none,
    agent_type := "sdk_configured" }

/-- A scope body that immediately returns, touching nothing. -/
def idBody : ScopeBody :=
  fun run s => (Except.ok JValue.null, run, s)

/-- A scope body that raises, touching nothing. -/
def raiseBody : ScopeBody :=
  fun run s => (Except.error (Err.transport "boom"), run, s)

/-- A concrete event inside `stepWithEvent`. -/
def eventDemo : Event :=
  { type := "prompt", content := JValue.str "hi", timestamp := some 7, metadata := none }

/-- A concrete step holding one event. -/
def stepWithEvent : Step :=
  { name := "s1", id := "sid1", attrs := none, events := [eventDemo],
    start_time := some 7, end_time := some 7 }

/-- A concrete run holding two steps of one event each. -/
def runWithSteps : Run :=
  { name := "r2", id := "rid2", meta := none, steps := [stepWithEvent, stepWithEvent],
    start_time := some 5, end_time := none }

lemma pyOrS_some_ne (a b : String) (ha : a ≠ "") : pyOrS (some a) b = a := by
  simp [pyOrS, ha]

lemma pyOrS_ne_empty (a : Option String) (b : String)
    (ha : ∀ x, a = some x → x ≠ "") (hb : b ≠ "") : pyOrS a b ≠ "" := by
  cases a with
  | none => simpa [pyOrS] using hb
  | some x =>
    by_cases hx : x = "" <;> simp [pyOrS, hx, hb, ha x rfl]

/-- Shared helper: `start_run` on a state whose client has no current agent
configuration fails with the not-configured error of `send_run_start` and
leaves the state untouched. -/
lemma start_run_no_agent_aux (s : SDKState) (c : HotEvalClient)
    (hc : s.client = some c) (hac : c.current_agent_config = none)
    (sender : Sender) (name : String) (meta : Option JValue) (now : Nat)
    (runId : String) :
    start_run sender name meta now runId s
      = (Except.error (Err.notConfigured
          "No agent configured. Call client.set_agent() or use hoteval.set_agent() first."), s) := by
  simp [start_run, get_client, hc, HotEvalClient.send_run_start, hac]

/-- C3: `set_agent` with an empty `name` or an empty `version` fails with a
`ConfigurationError` and leaves the whole SDK state unchanged — in
particular the previously installed current-agent configuration survives and
nothing is passed to the Sender. -/
theorem set_agent_empty_rejected (s : SDKState) (c : HotEvalClient)
    (hc : s.client = some c) (name version : String)
    (environment data_location description : Option String) (agent_type : String)
    (h : name = "" ∨ version = "") :
    ∃ msg, setAgentGlobal name version environment data_location description agent_type s
      = (Except.error (Err.configuration msg), s) := by
  rcases h with h | h
  · subst h
    exact ⟨"Agent name is required", by
      simp [setAgentGlobal, get_client, hc, HotEvalClient.set_agent]⟩
  · subst h
    by_cases hn : name = ""
    · subst hn
      exact ⟨"Agent name is required", by
        simp [setAgentGlobal, get_client, hc, HotEvalClient.set_agent]⟩
    · exact ⟨"Agent version is required", by
        simp [setAgentGlobal, get_client, hc, HotEvalClient.set_agent, hn]⟩

/-- Witness for C3 at a concrete input: empty name on a configured state. -/
theorem set_agent_empty_rejected_witness :
    stateConfigured.client = some clientDemo ∧
    ∃ msg, setAgentGlobal "" "1.0.0" none none none "sdk_configured" stateConfigured
      = (Except.error (Err.configuration msg), stateConfigured) :=
  ⟨by rfl,
    set_agent_empty_rejected stateConfigured clientDemo (by rfl) "" "1.0.0"
      none none none "sdk_configured" (Or.inl rfl)⟩

/-- C4: `start_run` on a configured client with no agent set fails with the
not-configured error and hands no payload to the Sender (the state — in
particular the `sent` log — is unchanged). -/
theorem start_run_without_agent (s : SDKState) (c : HotEvalClient)
    (hc : s.client = some c) (hac : c.current_agent_config = none)
    (sender : Sender) (name : String) (meta : Option JValue) (now : Nat)
    (runId : String) :
    start_run sender name meta now runId s
      = (Except.error (Err.notConfigured
          "No agent configured. Call client.set_agent() or use hoteval.set_agent() first."), s) :=
  start_run_no_agent_aux s c hc hac sender name meta now runId

/-- Witness for C4 at a concrete input: configured state, no agent. -/
theorem start_run_without_agent_witness :
    stateConfigured.client = some clientDemo ∧
    clientDemo.current_agent_config = none ∧
    start_run senderOk "r1" none 5 "id1" stateConfigured
      = (Except.error (Err.notConfigured
          "No agent configured. Call client.set_agent() or use hoteval.set_agent() first."),
         stateConfigured) :=
  ⟨by rfl, by rfl,
    start_run_without_agent stateConfigured clientDemo (by rfl) (by rfl)
      senderOk "r1" none 5 "id1"⟩

/-- C8: `configure` with no resolvable credentials — no truthy `api_key`
argument and no truthy `HOTEVAL_API_KEY` environment value — fails with a
`ConfigurationError` and leaves the state unchanged, so nothing reaches the
Sender and no client is installed. -/
theorem configure_without_credentials (env : SysEnv) (api_key base_url : Option String)
    (timeout : Nat) (environment data_location : Option String) (s : SDKState)
    (h1 : api_key = none ∨ api_key = some "")
    (h2 : env.hoteval_api_key = none ∨ env.hoteval_api_key = some "") :
    configure env api_key base_url timeout environment data_location s
      = (Except.error (Err.configuration "API key required"), s) := by
  have hk : pyTruthy api_key = false := by
    rcases h1 with h | h <;> subst h <;> simp [pyTruthy]
  rcases h2 with h | h <;>
    simp [configure, HotEvalClient.init, hk, h]

/-- Witness for C8 at a concrete input: no key argument, no key in the
environment. -/
theorem configure_without_credentials_witness :
    (none = (none : Option String) ∨ none = some "") ∧
    (envNoKey.hoteval_api_key = none ∨ envNoKey.hoteval_api_key = some "") ∧
    configure envNoKey none none 30 none none stateEmpty
      = (Except.error (Err.configuration "API key required"), stateEmpty) :=
  ⟨Or.inl rfl, Or.inl (by rfl),
    configure_without_credentials envNoKey none none 30 none none stateEmpty
      (Or.inl rfl) (Or.inl (by rfl))⟩

/-- C9: every `log_step` call appends exactly the step `mkLoggedStep ... now ...`
to the run, and that step is recorded as instantaneously complete:
`start_time = end_time = now`, the instant of the logging call; the step
returned on success is that same step, and every converted event carries the
same instant. -/
theorem log_step_instantaneous (sender : Sender) (run : Run) (name : String)
    (attrs : Option JValue) (events : Option (List EventInput)) (now : Nat)
    (stepId : String) (s : SDKState) :
    (log_step sender run name attrs events now stepId s).2.1.steps
        = run.steps ++ [mkLoggedStep name attrs events now stepId] ∧
    (mkLoggedStep name attrs events now stepId).start_time = some now ∧
    (mkLoggedStep name attrs events now stepId).end_time = some now ∧
    (mkLoggedStep name attrs events now stepId).start_time
        = (mkLoggedStep name attrs events now stepId).end_time ∧
    (∀ st, (log_step sender run name attrs events now stepId s).1 = Except.ok st →
      st = mkLoggedStep name attrs events now stepId) ∧
    ∀ e ∈ (mkLoggedStep name attrs events now stepId).events, e.timestamp = some now := by
  refine ⟨?_, rfl, rfl, rfl, ?_, ?_⟩
  · cases hc : s.client with
    | none => simp [log_step, get_client, hc]
    | some c =>
      simp only [log_step, get_client, hc, HotEvalClient.send_step, HotEvalClient.post]
      split <;> rfl
  · intro st hst
    cases hc : s.client with
    | none => simp [log_step, get_client, hc] at hst
    | some c =>
      simp only [log_step, get_client, hc, HotEvalClient.send_step,
        HotEvalClient.post] at hst
      split at hst
      · exact (Except.ok.inj hst).symm
      · exact absurd hst (by simp)
  · intro e he
    cases events with
    | none => simp [mkLoggedStep, mkLoggedEvents] at he
    | some evs =>
      simp only [mkLoggedStep, mkLoggedEvents, List.mem_map] at he
      obtain ⟨x, _, hx⟩ := he
      rw [← hx]

/-- Witness for C9 at a concrete input (the theorem has no hypotheses, the
implications inside are discharged concretely by applying it). -/
theorem log_step_instantaneous_witness :
    (log_step senderOk runDemo "s1" none
        (some [{ type := "prompt", content := JValue.str "hi", metadata := none }])
        7 "sid1" stateWithAgent).2.1.steps
      = runDemo.steps ++ [mkLoggedStep "s1" none
          (some [{ type := "prompt", content := JValue.str "hi", metadata := none }]) 7 "sid1"] ∧
    (mkLoggedStep "s1" none
        (some [{ type := "prompt", content := JValue.str "hi", metadata := none }])
        7 "sid1").start_time = some 7 ∧
    (mkLoggedStep "s1" none
        (some [{ type := "prompt", content := JValue.str "hi", metadata := none }])
        7 "sid1").end_time = some 7 ∧
    (mkLoggedStep "s1" none
        (some [{ type := "prompt", content := JValue.str "hi", metadata := none }])
        7 "sid1").start_time
      = (mkLoggedStep "s1" none
          (some [{ type := "prompt", content := JValue.str "hi", metadata := none }])
          7 "sid1").end_time ∧
    (∀ st, (log_step senderOk runDemo "s1" none
        (some [{ type := "prompt", content := JValue.str "hi", metadata := none }])
        7 "sid1" stateWithAgent).1 = Except.ok st →
      st = mkLoggedStep "s1" none
        (some [{ type := "prompt", content := JValue.str "hi", metadata := none }]) 7 "sid1") ∧
    ∀ e ∈ (mkLoggedStep "s1" none
        (some [{ type := "prompt", content := JValue.str "hi", metadata := none }])
        7 "sid1").events, e.timestamp = some 7 :=
  log_step_instantaneous senderOk runDemo "s1" none
    (some [{ type := "prompt", content := JValue.str "hi", metadata := none }])
    7 "sid1" stateWithAgent

/-- C5: serializing a `Run` with `N` steps, each holding `M` events, yields
under the `steps` key exactly the list of the step dictionaries, in stored
order and of length `N`, and each step dictionary holds under its `events`
key exactly the list of that step's event dictionaries, in stored order and
of length `M`. -/
theorem run_to_dict_counts (run : Run) (N M : Nat) (hN : run.steps.length = N)
    (hM : ∀ st ∈ run.steps, st.events.length = M) :
    ∃ stepDicts : List JValue,
      jGet run.to_dict "steps" = some (JValue.arr stepDicts) ∧
      stepDicts = run.steps.map Step.to_dict ∧
      stepDicts.length = N ∧
      ∀ st ∈ run.steps, ∃ evDicts : List JValue,
        jGet st.to_dict "events" = some (JValue.arr evDicts) ∧
        evDicts = st.events.map Event.to_dict ∧
        evDicts.length = M := by
  refine ⟨run.steps.map Step.to_dict, ?_, rfl, by simp [hN], ?_⟩
  · rfl
  · intro st hst
    exact ⟨st.events.map Event.to_dict, rfl, rfl, by simp [hM st hst]⟩

/-- Witness for C5: a run with two steps of one event each. -/
theorem run_to_dict_counts_witness :
    runWithSteps.steps.length = 2 ∧
    (∀ st ∈ runWithSteps.steps, st.events.length = 1) ∧
    ∃ stepDicts : List JValue,
      jGet runWithSteps.to_dict "steps" = some (JValue.arr stepDicts) ∧
      stepDicts = runWithSteps.steps.map Step.to_dict ∧
      stepDicts.length = 2 ∧
      ∀ st ∈ runWithSteps.steps, ∃ evDicts : List JValue,
        jGet st.to_dict "events" = some (JValue.arr evDicts) ∧
        evDicts = st.events.map Event.to_dict ∧
        evDicts.length = 1 :=
  ⟨by rfl, by simp [runWithSteps, stepWithEvent],
    run_to_dict_counts runWithSteps 2 1 (by rfl)
      (by simp [runWithSteps, stepWithEvent])⟩

/-- Shared helper: with an agent configured, `send_run_start` hands exactly
one request to the Sender — the run-start payload for that agent — whether
or not the network call succeeds. -/
lemma send_run_start_sent (sender : Sender) (c : HotEvalClient) (ac : AgentConfig)
    (hac : c.current_agent_config = some ac) (run : Run) (s : SDKState) :
    (HotEvalClient.send_run_start sender c run s).2.sent
      = s.sent ++ [reqFor c "/v1/runs/start" (runStartPayload run ac)] := by
  unfold HotEvalClient.send_run_start
  rw [hac]
  dsimp only
  unfold HotEvalClient.post
  dsimp only
  split <;> rfl

/-- Shared helper: the run-start payload carries `type = "run_start"` and the
agent configuration under `run.agent_metadata`. -/
lemma runStartPayload_fields (run : Run) (ac : AgentConfig) :
    jGet (runStartPayload run ac) "type" = some (JValue.str "run_start") ∧
    (jGet (runStartPayload run ac) "run").bind (fun rd => jGet rd "agent_metadata")
      = some ac.to_dict := by
  exact ⟨rfl, rfl⟩

/-- C1: on any configured client with non-empty defaults, `set_agent` with a
valid (non-empty) name/version pair succeeds and installs an `AgentConfig`
whose `environment` / `data_location` are the explicit arguments when given
(non-empty) and the process-wide defaults otherwise; a subsequent
`start_run`'s `send_run_start` then hands the Sender a run-start payload
whose `agent_metadata` equals exactly that most recently set
`AgentConfig`. -/
theorem set_agent_then_start_run_metadata
    (c : HotEvalClient) (name v : String) (hn : name ≠ "") (hv : v ≠ "")
    (environment data_location description : Option String) (agent_type : String)
    (he : ∀ e, environment = some e → e ≠ "")
    (hd : ∀ d, data_location = some d → d ≠ "")
    (hde : c.default_environment ≠ "") (hdl : c.default_data_location ≠ "") :
    ∃ c' ac,
      HotEvalClient.set_agent c name (some v) environment data_location description
          agent_type = Except.ok c' ∧
      c'.current_agent_config = some ac ∧
      ac.name = name ∧ ac.version = v ∧
      (∀ e, environment = some e → ac.environment = e) ∧
      (environment = none → ac.environment = c.default_environment) ∧
      (∀ d, data_location = some d → ac.data_location = d) ∧
      (data_location = none → ac.data_location = c.default_data_location) ∧
      ∀ (sender : Sender) (run : Run) (s : SDKState),
        (HotEvalClient.send_run_start sender c' run s).2.sent
            = s.sent ++ [reqFor c' "/v1/runs/start" (runStartPayload run ac)] ∧
        jGet (runStartPayload run ac) "type" = some (JValue.str "run_start") ∧
        (jGet (runStartPayload run ac) "run").bind (fun rd => jGet rd "agent_metadata")
            = some ac.to_dict := by
  have h1 : pyOrS environment c.default_environment ≠ "" := pyOrS_ne_empty _ _ he hde
  have h2 : pyOrS data_location c.default_data_location ≠ "" := pyOrS_ne_empty _ _ hd hdl
  refine ⟨{ c with current_agent_config := some (⟨name,
      pyOrS environment c.default_environment,
      pyOrS data_location c.default_data_location, v, description,
      agent_type⟩ : AgentConfig) },
    ⟨name, pyOrS environment c.default_environment,
      pyOrS data_location c.default_data_location, v, description, agent_type⟩,
    ?_, rfl, rfl, rfl, ?_, ?_, ?_, ?_, ?_⟩
  · simp [HotEvalClient.set_agent, hn, hv, h1, h2]
  · intro e hEq
    subst hEq
    exact pyOrS_some_ne e c.default_environment (he e rfl)
  · intro hEq
    subst hEq
    rfl
  · intro d hEq
    subst hEq
    exact pyOrS_some_ne d c.default_data_location (hd d rfl)
  · intro hEq
    subst hEq
    rfl
  · intro sender run s
    refine ⟨send_run_start_sent sender _ _ rfl run s, rfl, rfl⟩

/-- Witness for C1: the demo client, agent "bot"/"1.0.0", defaulted
environment and data-location. -/
theorem set_agent_then_start_run_metadata_witness :
    ("bot" : String) ≠ "" ∧ ("1.0.0" : String) ≠ "" ∧
    clientDemo.default_environment ≠ "" ∧ clientDemo.default_data_location ≠ "" ∧
    ∃ c' ac,
      HotEvalClient.set_agent clientDemo "bot" (some "1.0.0") none none none
          "sdk_configured" = Except.ok c' ∧
      c'.current_agent_config = some ac ∧
      ac.name = "bot" ∧ ac.version = "1.0.0" ∧
      (∀ e, (none : Option String) = some e → ac.environment = e) ∧
      ((none : Option String) = none → ac.environment = clientDemo.default_environment) ∧
      (∀ d, (none : Option String) = some d → ac.data_location = d) ∧
      ((none : Option String) = none → ac.data_location = clientDemo.default_data_location) ∧
      ∀ (sender : Sender) (run : Run) (s : SDKState),
        (HotEvalClient.send_run_start sender c' run s).2.sent
            = s.sent ++ [reqFor c' "/v1/runs/start" (runStartPayload run ac)] ∧
        jGet (runStartPayload run ac) "type" = some (JValue.str "run_start") ∧
        (jGet (runStartPayload run ac) "run").bind (fun rd => jGet rd "agent_metadata")
            = some ac.to_dict :=
  ⟨by decide, by decide, by decide, by decide,
    set_agent_then_start_run_metadata clientDemo "bot" "1.0.0" (by decide) (by decide)
      none none none "sdk_configured" (fun e h => by cases h) (fun d h => by cases h)
      (by decide) (by decide)⟩

/-- Shared helper: on a configured state, `end_run` stamps the run with the
call instant, hands exactly one run-end request to the Sender, and reports
the Sender's outcome. -/
lemma end_run_eq (sender : Sender) (run : Run) (now : Nat) (s : SDKState)
    (c : HotEvalClient) (hc : s.client = some c) :
    end_run sender run now s
      = ((if sender (reqFor c "/v1/runs/end" (runEndPayload { run with end_time := some now }))
            then Except.ok ()
            else Except.error (Err.transport
              (reqFor c "/v1/runs/end" (runEndPayload { run with end_time := some now })).url)),
         { run with end_time := some now },
         { s with sent := s.sent ++
             [reqFor c "/v1/runs/end" (runEndPayload { run with end_time := some now })] }) := by
  unfold end_run
  rw [show get_client s = Except.ok c by simp [get_client, hc]]
  dsimp only
  unfold HotEvalClient.send_run_end HotEvalClient.post
  dsimp only
  split <;> simp_all

/-- C6: `end_run` is not idempotent — invoking it twice on the same run
produces two separate run-end sends; the first payload serializes the run
with `end_time = t1`, the second with the later call instant `t2`, and when
the instants differ the two serialized runs differ. -/
theorem end_run_twice_two_sends (sender : Sender) (run : Run) (t1 t2 : Nat)
    (h12 : t1 ≤ t2) (s : SDKState) (c : HotEvalClient) (hc : s.client = some c) :
    (end_run sender run t1 s).2.1.end_time = some t1 ∧
    (end_run sender (end_run sender run t1 s).2.1 t2
        (end_run sender run t1 s).2.2).2.1.end_time = some t2 ∧
    (end_run sender (end_run sender run t1 s).2.1 t2
        (end_run sender run t1 s).2.2).2.2.sent
      = s.sent ++
          [reqFor c "/v1/runs/end" (runEndPayload { run with end_time := some t1 }),
           reqFor c "/v1/runs/end" (runEndPayload { run with end_time := some t2 })] ∧
    (∀ x y, (end_run sender run t1 s).2.1.end_time = some x →
      (end_run sender (end_run sender run t1 s).2.1 t2
          (end_run sender run t1 s).2.2).2.1.end_time = some y → x ≤ y) ∧
    (t1 < t2 →
      (end_run sender run t1 s).2.1
        ≠ (end_run sender (end_run sender run t1 s).2.1 t2
            (end_run sender run t1 s).2.2).2.1) := by
  rw [end_run_eq sender run t1 s c hc]
  dsimp only
  rw [end_run_eq sender { run with end_time := some t1 } t2 _ c (by simpa using hc)]
  dsimp only
  refine ⟨rfl, rfl, by simp, ?_, ?_⟩
  · intro x y hx hy
    rw [Option.some_inj] at hx hy
    omega
  · intro hlt heq
    have h := congrArg Run.end_time heq
    simp only at h
    rw [Option.some_inj] at h
    omega

/-- Witness for C6 at concrete instants 5 ≤ 7 on the demo state. -/
theorem end_run_twice_two_sends_witness :
    (5 : Nat) ≤ 7 ∧ stateWithAgent.client = some clientWithAgent ∧
    ((end_run senderOk runDemo 5 stateWithAgent).2.1.end_time = some 5 ∧
     (end_run senderOk (end_run senderOk runDemo 5 stateWithAgent).2.1 7
         (end_run senderOk runDemo 5 stateWithAgent).2.2).2.1.end_time = some 7 ∧
     (end_run senderOk (end_run senderOk runDemo 5 stateWithAgent).2.1 7
         (end_run senderOk runDemo 5 stateWithAgent).2.2).2.2.sent
       = stateWithAgent.sent ++
           [reqFor clientWithAgent "/v1/runs/end"
              (runEndPayload { runDemo with end_time := some 5 }),
            reqFor clientWithAgent "/v1/runs/end"
              (runEndPayload { runDemo with end_time := some 7 })] ∧
     (∀ x y, (end_run senderOk runDemo 5 stateWithAgent).2.1.end_time = some x →
       (end_run senderOk (end_run senderOk runDemo 5 stateWithAgent).2.1 7
           (end_run senderOk runDemo 5 stateWithAgent).2.2).2.1.end_time = some y →
       x ≤ y) ∧
     ((5 : Nat) < 7 →
       (end_run senderOk runDemo 5 stateWithAgent).2.1
         ≠ (end_run senderOk (end_run senderOk runDemo 5 stateWithAgent).2.1 7
             (end_run senderOk runDemo 5 stateWithAgent).2.2).2.1)) :=
  ⟨by decide, by rfl,
    end_run_twice_two_sends senderOk runDemo 5 7 (by decide) stateWithAgent
      clientWithAgent (by rfl)⟩

/-- C10: a successful re-`configure` replaces the global client wholesale;
the fresh client has no current agent configuration, so a `start_run` issued
before a new `set_agent` call fails with the not-configured-agent error and
sends nothing — regardless of any `set_agent` call made before the
reconfiguration. -/
theorem reconfigure_resets_agent (env : SysEnv) (api_key base_url : Option String)
    (timeout : Nat) (environment data_location : Option String) (s : SDKState)
    (k : String)
    (hk : (if pyTruthy api_key then api_key else env.hoteval_api_key) = some k)
    (hk2 : k ≠ "") :
    (configure env api_key base_url timeout environment data_location s).1
        = Except.ok () ∧
    ∃ c',
      (configure env api_key base_url timeout environment data_location s).2.client
          = some c' ∧
      c'.current_agent_config = none ∧
      ∀ (sender : Sender) (name : String) (meta : Option JValue) (now : Nat)
          (runId : String),
        start_run sender name meta now runId
            (configure env api_key base_url timeout environment data_location s).2
          = (Except.error (Err.notConfigured
              "No agent configured. Call client.set_agent() or use hoteval.set_agent() first."),
             (configure env api_key base_url timeout environment data_location s).2) := by
  have hconf : configure env api_key base_url timeout environment data_location s
      = (Except.ok (), { s with client := some (⟨k,
          pyOrS base_url (env.hoteval_base_url.getD "https://api.hoteval.com"),
          timeout,
          pyOrS environment (env.environment.getD "dev"),
          pyOrS data_location (env.data_location.getD "EU"),
          none⟩ : HotEvalClient) }) := by
    simp [configure, HotEvalClient.init, hk, hk2]
  rw [hconf]
  refine ⟨rfl, _, rfl, rfl, ?_⟩
  intro sender name meta now runId
  exact start_run_no_agent_aux _ _ rfl rfl sender name meta now runId

/-- Witness for C10: reconfiguring on top of `stateWithAgent`, where an
agent was set before. -/
theorem reconfigure_resets_agent_witness :
    (if pyTruthy none then none else envDemo.hoteval_api_key) = some "k" ∧
    ("k" : String) ≠ "" ∧
    ((configure envDemo none (some "http://x") 30 none none stateWithAgent).1
        = Except.ok () ∧
     ∃ c',
      (configure envDemo none (some "http://x") 30 none none stateWithAgent).2.client
          = some c' ∧
      c'.current_agent_config = none ∧
      ∀ (sender : Sender) (name : String) (meta : Option JValue) (now : Nat)
          (runId : String),
        start_run sender name meta now runId
            (configure envDemo none (some "http://x") 30 none none stateWithAgent).2
          = (Except.error (Err.notConfigured
              "No agent configured. Call client.set_agent() or use hoteval.set_agent() first."),
             (configure envDemo none (some "http://x") 30 none none stateWithAgent).2)) :=
  ⟨by rfl, by decide,
    reconfigure_resets_agent envDemo none (some "http://x") 30 none none
      stateWithAgent "k" (by rfl) (by decide)⟩

/-- C2 counterexample: with a configured client, an agent set, and a Sender
that fails the run-start network call, `start_run` does not return the
constructed `Run` object to the caller — its outcome is the propagated
transport error, so no `Run` is returned at all. -/
theorem start_run_send_failure_returns_no_run :
    (start_run senderFail "r1" none 5 "id1" stateWithAgent).1
      = Except.error (Err.transport "http://x/v1/runs/start") := by
  rfl

/-- C2 (amended): when the Sender fails the run-start call, `start_run`
propagates the transport error and does not return the `Run`; the `Run`
constructed before the send — carried inside the one run-start payload that
was handed to the Sender — has valid `name`, `id` and `start_time` (and no
`end_time`). -/
theorem start_run_send_failure_amended (sender : Sender)
    (name : String) (meta : Option JValue) (now : Nat) (runId : String)
    (s : SDKState) (c : HotEvalClient) (hc : s.client = some c)
    (ac : AgentConfig) (hac : c.current_agent_config = some ac)
    (hfail : sender (reqFor c "/v1/runs/start"
        (runStartPayload (mkRun name meta now runId) ac)) = false) :
    start_run sender name meta now runId s
      = (Except.error (Err.transport (reqFor c "/v1/runs/start"
            (runStartPayload (mkRun name meta now runId) ac)).url),
         { s with sent := s.sent ++ [reqFor c "/v1/runs/start"
            (runStartPayload (mkRun name meta now runId) ac)] }) ∧
    (mkRun name meta now runId).name = name ∧
    (mkRun name meta now runId).id = runId ∧
    (mkRun name meta now runId).start_time = some now ∧
    (mkRun name meta now runId).end_time = none := by
  refine ⟨?_, rfl, rfl, rfl, rfl⟩
  unfold start_run
  rw [show get_client s = Except.ok c by simp [get_client, hc]]
  dsimp only
  unfold HotEvalClient.send_run_start
  rw [hac]
  dsimp only
  unfold HotEvalClient.post
  dsimp only
  rw [hfail]
  rfl

/-- Witness for the amended C2 at a concrete input. -/
theorem start_run_send_failure_amended_witness :
    stateWithAgent.client = some clientWithAgent ∧
    clientWithAgent.current_agent_config = some agentConfigDemo ∧
    senderFail (reqFor clientWithAgent "/v1/runs/start"
        (runStartPayload (mkRun "r1" none 5 "id1") agentConfigDemo)) = false ∧
    (start_run senderFail "r1" none 5 "id1" stateWithAgent
      = (Except.error (Err.transport (reqFor clientWithAgent "/v1/runs/start"
            (runStartPayload (mkRun "r1" none 5 "id1") agentConfigDemo)).url),
         { stateWithAgent with sent := stateWithAgent.sent ++
            [reqFor clientWithAgent "/v1/runs/start"
              (runStartPayload (mkRun "r1" none 5 "id1") agentConfigDemo)] }) ∧
     (mkRun "r1" none 5 "id1").name = "r1" ∧
     (mkRun "r1" none 5 "id1").id = "id1" ∧
     (mkRun "r1" none 5 "id1").start_time = some 5 ∧
     (mkRun "r1" none 5 "id1").end_time = none) :=
  ⟨by rfl, by rfl, by rfl,
    start_run_send_failure_amended senderFail "r1" none 5 "id1" stateWithAgent
      clientWithAgent (by rfl) agentConfigDemo (by rfl) (by rfl)⟩

/-- C7: inside the `Agent.run` scope, once `start_run` succeeds on entry, the
`finally:` block invokes `end_run` on every exit path — whatever the body
does (return or raise) and whatever it did to the run and the state, as long
as it leaves a configured client: the run yielded back by the scope carries
`end_time = tEnd`, and the last payload handed to the Sender is the run-end
payload for exactly that run. -/
theorem scoped_run_always_ends
    (sender : Sender) (a : Agent) (name : String) (meta : Option JValue)
    (tStart tEnd : Nat) (runId : String) (body : ScopeBody) (s : SDKState)
    (c : HotEvalClient) (hc : s.client = some c) (ac : AgentConfig)
    (hac : c.current_agent_config = some ac)
    (hstart : sender (reqFor c "/v1/runs/start"
        (runStartPayload (mkRun name meta tStart runId) ac)) = true)
    (hbody : ((body (mkRun name meta tStart runId)
        { s with sent := s.sent ++ [reqFor c "/v1/runs/start"
            (runStartPayload (mkRun name meta tStart runId) ac)] }).2.2).client.isSome
        = true) :
    ∃ run',
      (Agent.runScope sender a name meta tStart tEnd runId body s).2.1 = some run' ∧
      run'.end_time = some tEnd ∧
      ∃ reqEnd,
        (Agent.runScope sender a name meta tStart tEnd runId body s).2.2.sent.getLast?
            = some reqEnd ∧
        reqEnd.payload = runEndPayload run' := by
  have hsr : start_run sender name meta tStart runId s
      = (Except.ok (mkRun name meta tStart runId),
         { s with sent := s.sent ++ [reqFor c "/v1/runs/start"
            (runStartPayload (mkRun name meta tStart runId) ac)] }) := by
    unfold start_run
    rw [show get_client s = Except.ok c by simp [get_client, hc]]
    dsimp only
    unfold HotEvalClient.send_run_start
    rw [hac]
    dsimp only
    unfold HotEvalClient.post
    dsimp only
    rw [hstart]
    rfl
  unfold Agent.runScope
  rw [hsr]
  dsimp only
  rcases hB : body (mkRun name meta tStart runId)
      { s with sent := s.sent ++ [reqFor c "/v1/runs/start"
          (runStartPayload (mkRun name meta tStart runId) ac)] } with ⟨bres, run2, s2⟩
  rw [hB] at hbody
  obtain ⟨c2, hc2⟩ := Option.isSome_iff_exists.mp hbody
  dsimp only at hc2 ⊢
  rw [end_run_eq sender run2 tEnd s2 c2 hc2]
  dsimp only
  exact ⟨{ run2 with end_time := some tEnd }, rfl, rfl,
    reqFor c2 "/v1/runs/end" (runEndPayload { run2 with end_time := some tEnd }),
    List.getLast?_concat _, rfl⟩

/-- Witness for C7: the demo agent on the demo state with a body that
returns immediately. -/
theorem scoped_run_always_ends_witness :
    stateWithAgent.client = some clientWithAgent ∧
    clientWithAgent.current_agent_config = some agentConfigDemo ∧
    senderOk (reqFor clientWithAgent "/v1/runs/start"
        (runStartPayload (mkRun "r1" none 5 "id1") agentConfigDemo)) = true ∧
    ((idBody (mkRun "r1" none 5 "id1")
        { stateWithAgent with sent := stateWithAgent.sent ++
            [reqFor clientWithAgent "/v1/runs/start"
              (runStartPayload (mkRun "r1" none 5 "id1") agentConfigDemo)] }).2.2).client.isSome
        = true ∧
    ∃ run',
      (Agent.runScope senderOk agentDemo "r1" none 5 9 "id1" idBody stateWithAgent).2.1
          = some run' ∧
      run'.end_time = some 9 ∧
      ∃ reqEnd,
        (Agent.runScope senderOk agentDemo "r1" none 5 9 "id1" idBody
            stateWithAgent).2.2.sent.getLast? = some reqEnd ∧
        reqEnd.payload = runEndPayload run' :=
  ⟨by rfl, by rfl, by rfl, by rfl,
    scoped_run_always_ends senderOk agentDemo "r1" none 5 9 "id1" idBody
      stateWithAgent clientWithAgent (by rfl) agentConfigDemo (by rfl) (by rfl) (by rfl)⟩

end HotEval
